import Mathlib

/-
Verification of the hidapi Go binding (src/hidapi.go) against its
specification. The native hidapi C library is external to the repository;
it is modelled as an environment of response functions (one per native
entry point). Each Go wrapper is translated into a Lean function of that
environment; where a claim speaks about the arguments the wrapper passes
to the native call, the model additionally returns a record of those
arguments. Go byte slices are lists of byte values, C buffers are lists
with explicit length bookkeeping, Go (value, error) returns are pairs
with an `Option` error component, and machine integers are `Nat`/`Int`
with an explicit `% 65536` at every uint16 conversion boundary.
-/

namespace Hidapi

/-- A byte value (Go `byte` / C `uint8_t`). -/
abbrev Byte := Nat

/-- A wide-character string buffer: the sequence of `wchar_t` code units. -/
abbrev WStr := List Nat

/-- A Go `error` value produced by the binding: either the structured
C-API `*Error` (function name, device error string, return code) from
`apiError`/`devError`, or a plain message error from `errors.New` /
`fmt.Errorf`. -/
inductive GoErr where
  | api (functionName : String) (errorString : String) (returnCode : Int)
  | msg (s : String)
deriving DecidableEq

/-- Go: `const wsLength = 128`, the wide-string buffer capacity. -/
def wsLength : Nat := 128

/-- Go: `func boolToInt(x bool) int`. -/
def boolToInt (x : Bool) : Int :=
  if x then 1 else 0

/-- Go: `func apiError(name string, rc int) *Error` — an `Error` with the
function name and return code and an empty device error string. -/
def apiError (name : String) (rc : Int) : GoErr :=
  GoErr.api name "" rc

/-- Go: `func go2cCopy(dst *C.uint8_t, src []byte) *C.uint8_t`.
`copy` writes all of `src` into the C buffer; memory past `len(src)`
keeps its previous contents. -/
def go2cCopy (dst : List Byte) (src : List Byte) : List Byte :=
  src ++ dst.drop src.length

/-- Go: `func c2goSlice(buf *C.uint8_t, n int) []byte` — makes a Go slice
of length `n` and copies `n` bytes from C memory into it (the C side is
an unbounded array view, so exactly `n` bytes are always read; bytes past
the modelled buffer contents are unspecified memory, modelled as 0). -/
def c2goSlice (buf : List Byte) (n : Nat) : List Byte :=
  buf.take n ++ List.replicate (n - buf.length) 0

/-- The native hid_device_info node of the enumeration linked list.
Numeric fields are the values of the C `unsigned short` fields; the
wide-string fields are `wchar_t*` pointers (`none` = NULL). -/
structure HidDeviceInfo where
  path : String
  vendor_id : Nat
  product_id : Nat
  serial_number : Option WStr
  release_number : Nat
  manufacturer_string : Option WStr
  product_string : Option WStr
  usage_page : Nat
  usage : Nat
  interface_number : Int

/-- Go: `type DeviceInfo struct` — device information of the binding. -/
structure DeviceInfo where
  Path : String
  VendorID : Nat
  ProductID : Nat
  SerialNumber : String
  ReleaseNumber : Nat
  Manufacturer : String
  Product : String
  UsagePage : Nat
  Usage : Nat
  InterfaceNumber : Int
deriving DecidableEq

/-- An open HID device. The Go `Device` type wraps the opaque native handle
`*C.struct_hid_device_`; the handle is modelled by the responses the
native library gives to calls made on it. Buffer-filling calls return
the native return code together with the buffer contents after the call;
`alloc` models the (uninitialized) contents `malloc` hands out, and
`hid_error` models the converted `hid_error` string (`none` when the
wide-string conversion fails). -/
structure Device where
  hid_error : Option String
  alloc : Nat → List Byte
  alloc_len : ∀ n, (alloc n).length = n
  hid_write : List Byte → Nat → Int
  hid_read : List Byte → Nat → Int × List Byte
  hid_read_timeout : List Byte → Nat → Int → Int × List Byte
  hid_set_nonblocking : Int → Int
  hid_send_feature_report : List Byte → Nat → Int
  hid_get_feature_report : List Byte → Nat → Int × List Byte
  hid_get_manufacturer_string : Nat → Int × WStr
  hid_get_product_string : Nat → Int × WStr
  hid_get_serial_number_string : Nat → Int × WStr
  hid_get_indexed_string : Int → Nat → Int × WStr
  wsGoString : WStr → String × Option GoErr

/-- Go: `func (d *Device) devError(name string, rc int) error` — builds an
`Error` carrying the last-error string of the device (`"?"` when the
conversion of that string itself fails). -/
def Device.devError (d : Device) (name : String) (rc : Int) : GoErr :=
  GoErr.api name (d.hid_error.getD "?") rc

/-- The top-level native library entry points used by the package-level
functions, plus the external wide-character conversion utilities.
`hid_enumerate` returns the linked list as a Lean list (`[]` = NULL);
`hid_open`/`hid_open_path` return the opened handle (`none` = NULL). -/
structure ApiEnv where
  hid_init : Int
  hid_exit : Int
  hid_enumerate : Nat → Nat → List HidDeviceInfo
  hid_open : Nat → Nat → Option WStr → Option Device
  hid_open_path : String → Option Device
  fromGoString : String → Option WStr
  wcharPtrToGoString : Option WStr → String × Option GoErr

/-- Go: `func Init() error`. -/
def Init (env : ApiEnv) : Option GoErr :=
  let rc := env.hid_init
  if rc ≠ 0 then some (apiError "hid_init" rc) else none

/-- Go: `func Exit() error`. -/
def Exit (env : ApiEnv) : Option GoErr :=
  let rc := env.hid_exit
  if rc ≠ 0 then some (apiError "hid_exit" rc) else none

/-- Go: construction of one `DeviceInfo` from one native list node inside
the `Enumerate` loop: the scalar fields are struct-literal copies
(each C `unsigned short` converted to Go `uint16`), and each wide string
is converted with `wchar.WcharStringPtrToGoString`, falling back to the
empty string when that conversion reports an error. -/
def nodeToInfo (env : ApiEnv) (di : HidDeviceInfo) : DeviceInfo :=
  let devInfo : DeviceInfo :=
    { Path := di.path
      VendorID := di.vendor_id % 65536
      ProductID := di.product_id % 65536
      SerialNumber := ""
      ReleaseNumber := di.release_number % 65536
      Manufacturer := ""
      Product := ""
      UsagePage := di.usage_page % 65536
      Usage := di.usage % 65536
      InterfaceNumber := di.interface_number }
  let sn := env.wcharPtrToGoString di.serial_number
  let devInfo := { devInfo with SerialNumber := if (sn.2).isSome then "" else sn.1 }
  let mf := env.wcharPtrToGoString di.manufacturer_string
  let devInfo := { devInfo with Manufacturer := if (mf.2).isSome then "" else mf.1 }
  let pr := env.wcharPtrToGoString di.product_string
  { devInfo with Product := if (pr.2).isSome then "" else pr.1 }

/-- The `for di != nil` loop of `Enumerate`: walks the native list and
appends one `DeviceInfo` per node to the accumulator `devs`. -/
def enumLoop (env : ApiEnv) : List HidDeviceInfo → List DeviceInfo → List DeviceInfo
  | [], devs => devs
  | di :: rest, devs => enumLoop env rest (devs ++ [nodeToInfo env di])

/-- Go: `func Enumerate(vid, pid uint16) []*DeviceInfo`. Returns the Go
result (`none` = nil slice) together with the `(vid, pid)` values passed
to `hid_enumerate`. -/
def Enumerate (env : ApiEnv) (vid pid : Nat) :
    Option (List DeviceInfo) × (Nat × Nat) :=
  let args := (vid % 65536, pid % 65536)
  let diList := env.hid_enumerate args.1 args.2
  match diList with
  | [] => (none, args)
  | _ :: _ => (some (enumLoop env diList []), args)

/-- Go: `func Open(vid, pid uint16, sn string) (*Device, error)`. Returns
the Go `(device, error)` pair together with the list of calls made to
`hid_open`, each recorded as the `(vid, pid, serial)` arguments passed
(the serial argument is `none` for a NULL pointer). -/
def Open (env : ApiEnv) (vid pid : Nat) (sn : String) :
    (Option Device × Option GoErr) × List (Nat × Nat × Option WStr) :=
  let args := (vid % 65536, pid % 65536)
  let devCall : Except GoErr (Option Device × List (Nat × Nat × Option WStr)) :=
    if sn = "" then
      Except.ok (env.hid_open args.1 args.2 none, [(args.1, args.2, none)])
    else
      match env.fromGoString sn with
      | none => Except.error (GoErr.msg "can\x27t convert serial number")
      | some ws =>
          Except.ok (env.hid_open args.1 args.2 (some ws), [(args.1, args.2, some ws)])
  match devCall with
  | Except.error e => ((none, some e), [])
  | Except.ok (none, calls) => ((none, some (GoErr.msg "hid_open() returned NULL")), calls)
  | Except.ok (some d, calls) => ((some d, none), calls)

/-- Go: `func OpenPath(path string) (*Device, error)`. -/
def OpenPath (env : ApiEnv) (path : String) : Option Device × Option GoErr :=
  match env.hid_open_path path with
  | none => (none, some (GoErr.msg "hid_open_path() returned NULL"))
  | some d => ((some d), none)

/-- Go: `func (d *Device) Write(data []byte) error`. Returns the Go error
and the `(buffer, length)` arguments passed to `hid_write`. -/
def Device.Write (d : Device) (data : List Byte) :
    Option GoErr × (List Byte × Nat) :=
  let cLength := data.length
  let cBuffer := go2cCopy (d.alloc cLength) data
  let rc := d.hid_write cBuffer cLength
  let res :=
    if rc < 0 then
      some (d.devError "hid_write" rc)
    else if rc ≠ (cLength : Int) then
      some (GoErr.msg ("hid_write() only wrote " ++ toString rc ++ " of " ++
        toString cLength ++ " bytes"))
    else
      none
  (res, (cBuffer, cLength))

/-- Go: `func (d *Device) ReadTimeout(id byte, length, milliseconds int)
([]byte, error)` (the length is a nonnegative int; a negative length
crashes inside malloc and is outside the model). Returns the Go
`(slice, error)` pair and the `(buffer, length)` passed to
`hid_read_timeout`. -/
def Device.ReadTimeout (d : Device) (id : Byte) (length : Nat) (milliseconds : Int) :
    (Option (List Byte) × Option GoErr) × (List Byte × Nat) :=
  let cLength := length + 1
  let cBuffer := (d.alloc cLength).set 0 id
  let call := d.hid_read_timeout cBuffer cLength milliseconds
  let rc := call.1
  let res : Option (List Byte) × Option GoErr :=
    if rc < 0 then
      (none, some (d.devError "hid_read_timeout" rc))
    else if rc = 0 then
      (none, some (GoErr.msg "hid_read_timeout() read 0 bytes"))
    else
      (some (c2goSlice call.2 rc.toNat), none)
  (res, (cBuffer, cLength))

/-- Go: `func (d *Device) Read(id byte, length int) ([]byte, error)`
(the length is a nonnegative int; a negative length crashes inside
malloc and is outside the model). Returns the Go `(slice, error)` pair
and the `(buffer, length)` passed to `hid_read`. -/
def Device.Read (d : Device) (id : Byte) (length : Nat) :
    (Option (List Byte) × Option GoErr) × (List Byte × Nat) :=
  let cLength := length + 1
  let cBuffer := (d.alloc cLength).set 0 id
  let call := d.hid_read cBuffer cLength
  let rc := call.1
  let res : Option (List Byte) × Option GoErr :=
    if rc < 0 then
      (none, some (d.devError "hid_read" rc))
    else if rc = 0 then
      (none, some (GoErr.msg "hid_read() read 0 bytes"))
    else
      (some (c2goSlice call.2 rc.toNat), none)
  (res, (cBuffer, cLength))

/-- Go: `func (d *Device) SetNonBlocking(nonblock bool) error`. Returns
the Go error and the int argument passed to `hid_set_nonblocking`. -/
def Device.SetNonBlocking (d : Device) (nonblock : Bool) : Option GoErr × Int :=
  let arg := boolToInt nonblock
  let rc := d.hid_set_nonblocking arg
  (if rc ≠ 0 then some (d.devError "hid_set_nonblocking" rc) else none, arg)

/-- Go: `func (d *Device) SendFeatureReport(data []byte) error`. Returns
the Go error and the `(buffer, length)` passed to
`hid_send_feature_report`. -/
def Device.SendFeatureReport (d : Device) (data : List Byte) :
    Option GoErr × (List Byte × Nat) :=
  let cLength := data.length
  let cBuffer := go2cCopy (d.alloc cLength) data
  let rc := d.hid_send_feature_report cBuffer cLength
  let res :=
    if rc < 0 then
      some (d.devError "hid_send_feature_report" rc)
    else if rc ≠ (cLength : Int) then
      some (GoErr.msg ("hid_send_feature_report() only wrote " ++ toString rc ++
        " of " ++ toString cLength ++ " bytes"))
    else
      none
  (res, (cBuffer, cLength))

/-- Go: `func (d *Device) GetFeatureReport(id byte, length int)
([]byte, error)` (nonnegative length, as for Read). Returns the Go
`(slice, error)` pair and the `(buffer, length)` passed to
`hid_get_feature_report`. -/
def Device.GetFeatureReport (d : Device) (id : Byte) (length : Nat) :
    (Option (List Byte) × Option GoErr) × (List Byte × Nat) :=
  let cLength := length + 1
  let cBuffer := (d.alloc cLength).set 0 id
  let call := d.hid_get_feature_report cBuffer cLength
  let rc := call.1
  let res : Option (List Byte) × Option GoErr :=
    if rc < 0 then
      (none, some (d.devError "hid_get_feature_report" rc))
    else if rc = 0 then
      (none, some (GoErr.msg "hid_get_feature_report() read 0 bytes"))
    else
      (some (c2goSlice call.2 rc.toNat), none)
  (res, (cBuffer, cLength))

/-- Go: `func (d *Device) GetManufacturerString() (string, error)`.
Returns the Go `(string, error)` pair and the buffer capacity passed
to the native call. -/
def Device.GetManufacturerString (d : Device) : (String × Option GoErr) × Nat :=
  let call := d.hid_get_manufacturer_string wsLength
  (if call.1 ≠ 0 then ("", some (d.devError "hid_get_manufacturer_string" call.1))
   else d.wsGoString call.2, wsLength)

/-- Go: `func (d *Device) GetProductString() (string, error)`. -/
def Device.GetProductString (d : Device) : (String × Option GoErr) × Nat :=
  let call := d.hid_get_product_string wsLength
  (if call.1 ≠ 0 then ("", some (d.devError "hid_get_product_string" call.1))
   else d.wsGoString call.2, wsLength)

/-- Go: `func (d *Device) GetSerialNumberString() (string, error)`. -/
def Device.GetSerialNumberString (d : Device) : (String × Option GoErr) × Nat :=
  let call := d.hid_get_serial_number_string wsLength
  (if call.1 ≠ 0 then ("", some (d.devError "hid_get_serial_number_string" call.1))
   else d.wsGoString call.2, wsLength)

/-- Go: `func (d *Device) GetIndexedString(idx int) (string, error)`. -/
def Device.GetIndexedString (d : Device) (idx : Int) : (String × Option GoErr) × Nat :=
  let call := d.hid_get_indexed_string idx wsLength
  (if call.1 ≠ 0 then ("", some (d.devError "hid_get_indexed_string" call.1))
   else d.wsGoString call.2, wsLength)

/-- Go: `strings.Join(s, "\n")`. -/
def joinLines (s : List String) : String :=
  String.intercalate "\n" s

/-- An alias for the string type, usable inside `Device.String` where the
bare name `String` resolves to the declaration itself. -/
abbrev Str := String

/-- Go: `func (d *Device) String() string` — one line per descriptor
getter that succeeds, joined with newlines. -/
def Device.String (d : Device) : Str :=
  let s : List Str := []
  let r1 := (Device.GetManufacturerString d).1
  let s := if (r1.2).isNone then s ++ ["manufacturer: " ++ r1.1] else s
  let r2 := (Device.GetProductString d).1
  let s := if (r2.2).isNone then s ++ ["product: " ++ r2.1] else s
  let r3 := (Device.GetSerialNumberString d).1
  let s := if (r3.2).isNone then s ++ ["serial number: " ++ r3.1] else s
  joinLines s

/-- Modelled from the spec: the native hidapi data-transfer calls
(hid_write, hid_read, hid_read_timeout, hid_send_feature_report,
hid_get_feature_report) return a transferred byte count and signal
failure with a negative return code, so a native return code indicates
success exactly when it is nonnegative. -/
def nativeCountIndicatesSuccess (rc : Int) : Bool :=
  decide (0 ≤ rc)

/-- A concrete device whose native calls all answer with zeroes: used as
the base for the concrete devices of the witnesses below. -/
def dev0 : Device where
  hid_error := some "device busy"
  alloc := fun n => List.replicate n 0
  alloc_len := fun n => by simp
  hid_write := fun _ _ => 0
  hid_read := fun _ _ => (0, [])
  hid_read_timeout := fun _ _ _ => (0, [])
  hid_set_nonblocking := fun _ => 0
  hid_send_feature_report := fun _ _ => 0
  hid_get_feature_report := fun _ _ => (0, [])
  hid_get_manufacturer_string := fun _ => (0, [])
  hid_get_product_string := fun _ => (0, [])
  hid_get_serial_number_string := fun _ => (0, [])
  hid_get_indexed_string := fun _ _ => (0, [])
  wsGoString := fun _ => ("", none)

/-- A concrete top-level environment with empty native answers. -/
def env0 : ApiEnv where
  hid_init := 0
  hid_exit := 0
  hid_enumerate := fun _ _ => []
  hid_open := fun _ _ _ => none
  hid_open_path := fun _ => none
  fromGoString := fun _ => some []
  wcharPtrToGoString := fun _ => ("", none)

/-- A device whose hid_read answers with return code 0 (no data
available — a successful native return code). -/
def devReadZero : Device :=
  { dev0 with hid_read := fun _ _ => (0, []) }

/-- A device whose native string-descriptor call succeeds (return code
0) but whose wide-string conversion fails. -/
def devConvFail : Device :=
  { dev0 with
    hid_get_manufacturer_string := fun _ => (0, [55296])
    wsGoString := fun _ => ("", some (GoErr.msg "failed to convert wchar string")) }

/-- A device on which all three string-descriptor calls fail. -/
def devAllFail : Device :=
  { dev0 with
    hid_get_manufacturer_string := fun _ => (-1, [])
    hid_get_product_string := fun _ => (-1, [])
    hid_get_serial_number_string := fun _ => (-1, []) }

/-- A device whose read-style calls answer with return code 2 and buffer
contents [9, 8, 7]. -/
def devRead2 : Device :=
  { dev0 with
    hid_read := fun _ _ => (2, [9, 8, 7])
    hid_read_timeout := fun _ _ _ => (2, [9, 8, 7])
    hid_get_feature_report := fun _ _ => (2, [9, 8, 7]) }

/-- An environment whose hid_open always returns a handle. -/
def envOpen : ApiEnv :=
  { env0 with hid_open := fun _ _ _ => some dev0 }

/-- A concrete native enumeration node with all wide strings present. -/
def nodeA : HidDeviceInfo where
  path := "usb:0001"
  vendor_id := 1
  product_id := 2
  serial_number := some [65]
  release_number := 3
  manufacturer_string := some [65]
  product_string := some [65]
  usage_page := 4
  usage := 5
  interface_number := 6

/-- A concrete native enumeration node with a NULL serial number and a
product string that does not convert. -/
def nodeB : HidDeviceInfo where
  path := "usb:0002"
  vendor_id := 7
  product_id := 8
  serial_number := none
  release_number := 9
  manufacturer_string := some [65]
  product_string := some [66, 66]
  usage_page := 10
  usage := 11
  interface_number := 12

/-- An environment enumerating the two nodes above, whose wide-string
conversion succeeds only on the one-character string [65]. -/
def envEnum : ApiEnv :=
  { env0 with
    hid_enumerate := fun _ _ => [nodeA, nodeB]
    wcharPtrToGoString := fun w =>
      match w with
      | some [65] => ("A", none)
      | _ => ("", some (GoErr.msg "bad wchar string")) }

/-- The C buffer `Write` and `SendFeatureReport` pass to the native call
holds exactly the Go data: the allocated buffer has the length of the data, so
`go2cCopy` overwrites it completely. -/
theorem go2cCopy_alloc (d : Device) (data : List Byte) :
    go2cCopy (d.alloc data.length) data = data := by
  unfold go2cCopy
  rw [List.drop_eq_nil_of_le (by simp [d.alloc_len]), List.append_nil]

/-- `c2goSlice` always produces a slice of exactly the requested
length. -/
theorem c2goSlice_length (buf : List Byte) (n : Nat) :
    (c2goSlice buf n).length = n := by
  unfold c2goSlice
  simp
  omega

/-- The read-style buffer after the `set(0, id)` poke has the report ID
as its first byte. -/
theorem alloc_set_head (d : Device) (id : Byte) (n : Nat) :
    ((d.alloc (n + 1)).set 0 id).head? = some id := by
  have h := d.alloc_len (n + 1)
  cases hl : d.alloc (n + 1) with
  | nil => rw [hl] at h; simp at h
  | cons a t => rfl

/-- Claim C2: `Init` and `Exit` return nil exactly when the native
`hid_init` / `hid_exit` call returns 0, and otherwise return an `*Error`
recording the name of the native function and its non-zero return code, with
an empty device error string. -/
theorem c2_init_exit_error_mapping (env : ApiEnv) :
    (Init env = none ↔ env.hid_init = 0) ∧
    (Exit env = none ↔ env.hid_exit = 0) ∧
    Init env = (if env.hid_init = 0 then none
      else some (GoErr.api "hid_init" "" env.hid_init)) ∧
    Exit env = (if env.hid_exit = 0 then none
      else some (GoErr.api "hid_exit" "" env.hid_exit)) := by
  unfold Init Exit apiError
  by_cases h1 : env.hid_init = 0 <;> by_cases h2 : env.hid_exit = 0 <;>
    simp [h1, h2]

/-- Claim C6: `SetNonBlocking` passes exactly 1 to the native
`hid_set_nonblocking` when nonblock is true and exactly 0 when it is
false, returns nil iff the native call returns 0, and on a non-zero
return code returns an error recording the function name and that
return code. -/
theorem c6_setnonblocking (d : Device) (nonblock : Bool) :
    (Device.SetNonBlocking d nonblock).2 = (if nonblock then 1 else 0) ∧
    ((Device.SetNonBlocking d nonblock).1 = none ↔
      d.hid_set_nonblocking (if nonblock then 1 else 0) = 0) ∧
    (Device.SetNonBlocking d nonblock).1 =
      (if d.hid_set_nonblocking (if nonblock then 1 else 0) = 0 then none
       else some (GoErr.api "hid_set_nonblocking" (d.hid_error.getD "?")
         (d.hid_set_nonblocking (if nonblock then 1 else 0)))) := by
  unfold Device.SetNonBlocking boolToInt Device.devError
  by_cases h : d.hid_set_nonblocking (if nonblock then 1 else 0) = 0 <;>
    simp [h]

/-- `Write` succeeds exactly when the native return code equals the data
length. -/
theorem write_ok_iff (d : Device) (data : List Byte) :
    (Device.Write d data).1 = none ↔
      d.hid_write data data.length = (data.length : Int) := by
  simp only [Device.Write, Device.devError, go2cCopy_alloc]
  by_cases h1 : d.hid_write data data.length < 0 <;>
    by_cases h2 : d.hid_write data data.length = (data.length : Int) <;>
    simp [h1, h2]

/-- `SendFeatureReport` succeeds exactly when the native return code
equals the data length. -/
theorem send_feature_ok_iff (d : Device) (data : List Byte) :
    (Device.SendFeatureReport d data).1 = none ↔
      d.hid_send_feature_report data data.length = (data.length : Int) := by
  simp only [Device.SendFeatureReport, Device.devError, go2cCopy_alloc]
  by_cases h1 : d.hid_send_feature_report data data.length < 0 <;>
    by_cases h2 : d.hid_send_feature_report data data.length = (data.length : Int) <;>
    simp [h1, h2]

/-- Claim C9: `Write` and `SendFeatureReport` never report a
partly transferred buffer as success: they return nil exactly when the native return code equals
len(data); a negative return code yields the device error carrying the
function name and return code, and a non-negative count different from
len(data) yields a distinct short-write message error; the byte count
itself is never part of the result. -/
theorem c9_write_all_or_nothing (d : Device) (data : List Byte) :
    ((Device.Write d data).1 = none ↔
      d.hid_write data data.length = (data.length : Int)) ∧
    ((Device.SendFeatureReport d data).1 = none ↔
      d.hid_send_feature_report data data.length = (data.length : Int)) ∧
    (Device.Write d data).1 =
      (if d.hid_write data data.length < 0 then
        some (GoErr.api "hid_write" (d.hid_error.getD "?")
          (d.hid_write data data.length))
       else if d.hid_write data data.length ≠ (data.length : Int) then
        some (GoErr.msg ("hid_write() only wrote " ++
          toString (d.hid_write data data.length) ++ " of " ++
          toString data.length ++ " bytes"))
       else none) ∧
    (Device.SendFeatureReport d data).1 =
      (if d.hid_send_feature_report data data.length < 0 then
        some (GoErr.api "hid_send_feature_report" (d.hid_error.getD "?")
          (d.hid_send_feature_report data data.length))
       else if d.hid_send_feature_report data data.length ≠ (data.length : Int) then
        some (GoErr.msg ("hid_send_feature_report() only wrote " ++
          toString (d.hid_send_feature_report data data.length) ++ " of " ++
          toString data.length ++ " bytes"))
       else none) := by
  refine ⟨write_ok_iff d data, send_feature_ok_iff d data, ?_, ?_⟩
  · simp only [Device.Write, Device.devError, go2cCopy_alloc]
  · simp only [Device.SendFeatureReport, Device.devError, go2cCopy_alloc]

/-- Claim C7 counterexample: on `devConvFail` the native
`hid_get_manufacturer_string` call returns 0, yet `GetManufacturerString`
returns the empty string together with a non-nil error, because the
wide-string conversion of the filled buffer itself fails — so "empty
string and non-nil error exactly when the native call returns a non-zero
code" does not hold. -/
theorem c7_counterexample :
    (devConvFail.hid_get_manufacturer_string wsLength).1 = 0 ∧
    (Device.GetManufacturerString devConvFail).1 =
      ("", some (GoErr.msg "failed to convert wchar string")) := by
  exact ⟨rfl, rfl⟩

/-- Claim C7 (amended): each string-descriptor getter passes the native
call a fixed buffer capacity of wsLength = 128 wide characters; on a
non-zero native return code it returns the empty string together with
the device error for that function; on a zero return code it returns the
result of the wide-string conversion of the buffer, which can itself
carry a conversion error. -/
theorem c7_string_getters (d : Device) (idx : Int) :
    wsLength = 128 ∧
    (Device.GetManufacturerString d).2 = 128 ∧
    (Device.GetProductString d).2 = 128 ∧
    (Device.GetSerialNumberString d).2 = 128 ∧
    (Device.GetIndexedString d idx).2 = 128 ∧
    (Device.GetManufacturerString d).1 =
      (if (d.hid_get_manufacturer_string wsLength).1 = 0 then
        d.wsGoString (d.hid_get_manufacturer_string wsLength).2
       else ("", some (GoErr.api "hid_get_manufacturer_string"
         (d.hid_error.getD "?") (d.hid_get_manufacturer_string wsLength).1))) ∧
    (Device.GetProductString d).1 =
      (if (d.hid_get_product_string wsLength).1 = 0 then
        d.wsGoString (d.hid_get_product_string wsLength).2
       else ("", some (GoErr.api "hid_get_product_string"
         (d.hid_error.getD "?") (d.hid_get_product_string wsLength).1))) ∧
    (Device.GetSerialNumberString d).1 =
      (if (d.hid_get_serial_number_string wsLength).1 = 0 then
        d.wsGoString (d.hid_get_serial_number_string wsLength).2
       else ("", some (GoErr.api "hid_get_serial_number_string"
         (d.hid_error.getD "?") (d.hid_get_serial_number_string wsLength).1))) ∧
    (Device.GetIndexedString d idx).1 =
      (if (d.hid_get_indexed_string idx wsLength).1 = 0 then
        d.wsGoString (d.hid_get_indexed_string idx wsLength).2
       else ("", some (GoErr.api "hid_get_indexed_string"
         (d.hid_error.getD "?") (d.hid_get_indexed_string idx wsLength).1))) := by
  simp only [Device.GetManufacturerString, Device.GetProductString,
    Device.GetSerialNumberString, Device.GetIndexedString, Device.devError]
  refine ⟨rfl, rfl, rfl, rfl, rfl, ?_, ?_, ?_, ?_⟩
  · by_cases h : (d.hid_get_manufacturer_string wsLength).1 = 0 <;> simp [h]
  · by_cases h : (d.hid_get_product_string wsLength).1 = 0 <;> simp [h]
  · by_cases h : (d.hid_get_serial_number_string wsLength).1 = 0 <;> simp [h]
  · by_cases h : (d.hid_get_indexed_string idx wsLength).1 = 0 <;> simp [h]

/-- Claim C10: `Device.String` is total and error-absorbing: it is the
newline-join of one line per descriptor getter that succeeds, in the
fixed order manufacturer, product, serial number, and it is the empty
string when all three getters fail. -/
theorem c10_device_string (d : Device) :
    Device.String d = String.intercalate "\n"
      ((if ((Device.GetManufacturerString d).1.2).isNone then
          ["manufacturer: " ++ (Device.GetManufacturerString d).1.1] else []) ++
       (if ((Device.GetProductString d).1.2).isNone then
          ["product: " ++ (Device.GetProductString d).1.1] else []) ++
       (if ((Device.GetSerialNumberString d).1.2).isNone then
          ["serial number: " ++ (Device.GetSerialNumberString d).1.1] else [])) ∧
    (((Device.GetManufacturerString d).1.2).isSome →
      ((Device.GetProductString d).1.2).isSome →
      ((Device.GetSerialNumberString d).1.2).isSome →
      Device.String d = "") := by
  constructor
  · simp only [Device.String, joinLines]
    by_cases h1 : ((Device.GetManufacturerString d).1.2).isNone <;>
      by_cases h2 : ((Device.GetProductString d).1.2).isNone <;>
      by_cases h3 : ((Device.GetSerialNumberString d).1.2).isNone <;>
      simp [h1, h2, h3]
  · intro h1 h2 h3
    simp only [Device.String, joinLines]
    rw [Option.isSome_iff_ne_none] at h1 h2 h3
    simp [Option.isNone_iff_eq_none, h1, h2, h3]
    rfl

/-- Witness for claim C10 at a concrete device on which all three
descriptor getters fail: the joined string is empty. -/
theorem c10_device_string_witness : Device.String devAllFail = "" := by
  exact (c10_device_string devAllFail).2 (by decide) (by decide) (by decide)

/-- Claim C1 counterexample: on `devReadZero` the native `hid_read`
returns 0, a return code that indicates native success (the native
data-transfer calls signal failure only with a negative code), yet
`Read` fails with a wrapper-made error — the wrapper is not an exact
success pass-through. -/
theorem c1_counterexample :
    nativeCountIndicatesSuccess 0 = true ∧
    (Device.Read devReadZero 0 1).1.2 =
      some (GoErr.msg "hid_read() read 0 bytes") := by
  exact ⟨rfl, rfl⟩

/-- Claim C1 (amended): each wrapper makes exactly one native call and
decides success solely from the return code of that call, but the mapping is
not a bare success pass-through: `Write` and `SendFeatureReport` succeed
exactly when the native code equals len(data) (a short write is a
wrapper-introduced failure), and `Read`, `ReadTimeout` and
`GetFeatureReport` succeed exactly when the native code is positive (a
zero-byte native result is a wrapper-introduced failure). -/
theorem c1_passthrough (d : Device) (data : List Byte) (id : Byte)
    (n : Nat) (ms : Int) :
    ((Device.Write d data).1 = none ↔
      d.hid_write data data.length = (data.length : Int)) ∧
    ((Device.SendFeatureReport d data).1 = none ↔
      d.hid_send_feature_report data data.length = (data.length : Int)) ∧
    ((Device.Read d id n).1.2 = none ↔
      0 < (d.hid_read ((d.alloc (n + 1)).set 0 id) (n + 1)).1) ∧
    ((Device.ReadTimeout d id n ms).1.2 = none ↔
      0 < (d.hid_read_timeout ((d.alloc (n + 1)).set 0 id) (n + 1) ms).1) ∧
    ((Device.GetFeatureReport d id n).1.2 = none ↔
      0 < (d.hid_get_feature_report ((d.alloc (n + 1)).set 0 id) (n + 1)).1) := by
  refine ⟨write_ok_iff d data, send_feature_ok_iff d data, ?_, ?_, ?_⟩
  · simp only [Device.Read, Device.devError]
    by_cases h1 : (d.hid_read ((d.alloc (n + 1)).set 0 id) (n + 1)).1 < 0 <;>
      by_cases h2 : (d.hid_read ((d.alloc (n + 1)).set 0 id) (n + 1)).1 = 0 <;>
      simp [h1, h2] <;> omega
  · simp only [Device.ReadTimeout, Device.devError]
    by_cases h1 : (d.hid_read_timeout ((d.alloc (n + 1)).set 0 id) (n + 1) ms).1 < 0 <;>
      by_cases h2 : (d.hid_read_timeout ((d.alloc (n + 1)).set 0 id) (n + 1) ms).1 = 0 <;>
      simp [h1, h2] <;> omega
  · simp only [Device.GetFeatureReport, Device.devError]
    by_cases h1 : (d.hid_get_feature_report ((d.alloc (n + 1)).set 0 id) (n + 1)).1 < 0 <;>
      by_cases h2 : (d.hid_get_feature_report ((d.alloc (n + 1)).set 0 id) (n + 1)).1 = 0 <;>
      simp [h1, h2] <;> omega

/-- Claim C8: `Read`, `ReadTimeout` and `GetFeatureReport` allocate a
native buffer of exactly n+1 bytes, set its first byte to the report ID
before the native call, and pass n+1 as the native length; on a positive
native return code rc they return the first rc bytes of the buffer after
the call — a slice of exactly rc bytes, which can therefore hold up to
n+1 bytes, with the report ID in its first byte when the native library
leaves it there. -/
theorem c8_read_buffer_layout (d : Device) (id : Byte) (n : Nat) (ms : Int) :
    ((d.alloc (n + 1)).set 0 id).length = n + 1 ∧
    ((d.alloc (n + 1)).set 0 id).head? = some id ∧
    (Device.Read d id n).2 = ((d.alloc (n + 1)).set 0 id, n + 1) ∧
    (Device.ReadTimeout d id n ms).2 = ((d.alloc (n + 1)).set 0 id, n + 1) ∧
    (Device.GetFeatureReport d id n).2 = ((d.alloc (n + 1)).set 0 id, n + 1) ∧
    (0 < (d.hid_read ((d.alloc (n + 1)).set 0 id) (n + 1)).1 →
      (Device.Read d id n).1.1 =
        some (c2goSlice (d.hid_read ((d.alloc (n + 1)).set 0 id) (n + 1)).2
          ((d.hid_read ((d.alloc (n + 1)).set 0 id) (n + 1)).1).toNat)) ∧
    (0 < (d.hid_read_timeout ((d.alloc (n + 1)).set 0 id) (n + 1) ms).1 →
      (Device.ReadTimeout d id n ms).1.1 =
        some (c2goSlice (d.hid_read_timeout ((d.alloc (n + 1)).set 0 id) (n + 1) ms).2
          ((d.hid_read_timeout ((d.alloc (n + 1)).set 0 id) (n + 1) ms).1).toNat)) ∧
    (0 < (d.hid_get_feature_report ((d.alloc (n + 1)).set 0 id) (n + 1)).1 →
      (Device.GetFeatureReport d id n).1.1 =
        some (c2goSlice (d.hid_get_feature_report ((d.alloc (n + 1)).set 0 id) (n + 1)).2
          ((d.hid_get_feature_report ((d.alloc (n + 1)).set 0 id) (n + 1)).1).toNat)) ∧
    (∀ buf m, (c2goSlice buf m).length = m) := by
  refine ⟨by simp [d.alloc_len], alloc_set_head d id n, rfl, rfl, rfl,
    ?_, ?_, ?_, c2goSlice_length⟩
  · intro h
    simp only [Device.Read, Device.devError]
    have h1 : ¬ (d.hid_read ((d.alloc (n + 1)).set 0 id) (n + 1)).1 < 0 := by omega
    have h2 : ¬ (d.hid_read ((d.alloc (n + 1)).set 0 id) (n + 1)).1 = 0 := by omega
    simp [h1, h2]
  · intro h
    simp only [Device.ReadTimeout, Device.devError]
    have h1 : ¬ (d.hid_read_timeout ((d.alloc (n + 1)).set 0 id) (n + 1) ms).1 < 0 := by omega
    have h2 : ¬ (d.hid_read_timeout ((d.alloc (n + 1)).set 0 id) (n + 1) ms).1 = 0 := by omega
    simp [h1, h2]
  · intro h
    simp only [Device.GetFeatureReport, Device.devError]
    have h1 : ¬ (d.hid_get_feature_report ((d.alloc (n + 1)).set 0 id) (n + 1)).1 < 0 := by omega
    have h2 : ¬ (d.hid_get_feature_report ((d.alloc (n + 1)).set 0 id) (n + 1)).1 = 0 := by omega
    simp [h1, h2]

/-- Witness for claim C8 at the concrete device `devRead2` (native calls
answer rc = 2 with buffer [9, 8, 7]) with id 5 and requested length 3:
the passed buffer is [5, 0, 0, 0] of length 4 and the returned slices
hold exactly the 2 bytes [9, 8]. -/
theorem c8_read_buffer_layout_witness :
    ((devRead2.alloc 4).set 0 5).head? = some 5 ∧
    (Device.Read devRead2 5 3).2 = ([5, 0, 0, 0], 4) ∧
    (Device.Read devRead2 5 3).1.1 = some [9, 8] ∧
    (Device.ReadTimeout devRead2 5 3 10).1.1 = some [9, 8] ∧
    (Device.GetFeatureReport devRead2 5 3).1.1 = some [9, 8] := by
  have h := c8_read_buffer_layout devRead2 5 3 10
  refine ⟨h.2.1, ?_, ?_, ?_, ?_⟩
  · rw [h.2.2.1]; rfl
  · rw [h.2.2.2.2.2.1 (by decide)]; rfl
  · rw [h.2.2.2.2.2.2.1 (by decide)]; rfl
  · rw [h.2.2.2.2.2.2.2.1 (by decide)]; rfl

/-- Claim C3: `Open` succeeds (non-nil Device, nil error) exactly when
the `hid_open` call it makes returns a non-NULL handle, passing a NULL
serial pointer when sn is empty and the converted serial otherwise;
`OpenPath` behaves the same with respect to `hid_open_path`; and success
and error are always mutually exclusive (never both a non-nil Device and
a non-nil error, and never neither). -/
theorem c3_open_success_iff (env : ApiEnv) (vid pid : Nat) (sn path : String) :
    (((Open env vid pid sn).1.1).isSome = true ↔
      (Open env vid pid sn).1.2 = none) ∧
    (sn = "" → (Open env vid pid sn).2 = [(vid % 65536, pid % 65536, none)]) ∧
    (∀ ws, sn ≠ "" → env.fromGoString sn = some ws →
      (Open env vid pid sn).2 = [(vid % 65536, pid % 65536, some ws)]) ∧
    (∀ a, (Open env vid pid sn).2 = [a] →
      (((Open env vid pid sn).1.1).isSome = true ↔
        (env.hid_open a.1 a.2.1 a.2.2).isSome = true)) ∧
    (((OpenPath env path).1).isSome = true ↔ (OpenPath env path).2 = none) ∧
    (((OpenPath env path).1).isSome = true ↔
      (env.hid_open_path path).isSome = true) := by
  refine ⟨?_, ?_, ?_, ?_, ?_, ?_⟩
  · simp only [Open]
    by_cases hsn : sn = ""
    · simp only [hsn, if_pos rfl]
      cases ho : env.hid_open (vid % 65536) (pid % 65536) none <;> simp [ho]
    · simp only [if_neg hsn]
      cases hconv : env.fromGoString sn with
      | none => simp
      | some ws =>
          cases ho : env.hid_open (vid % 65536) (pid % 65536) (some ws) <;>
            simp [ho]
  · intro hsn
    simp only [Open, hsn, if_pos rfl]
    cases ho : env.hid_open (vid % 65536) (pid % 65536) none <;> simp [ho]
  · intro ws hsn hconv
    simp only [Open, if_neg hsn, hconv]
    cases ho : env.hid_open (vid % 65536) (pid % 65536) (some ws) <;> simp [ho]
  · intro a ha
    simp only [Open] at ha ⊢
    by_cases hsn : sn = ""
    · simp only [hsn, if_pos rfl] at ha ⊢
      cases ho : env.hid_open (vid % 65536) (pid % 65536) none <;>
        · simp [ho] at ha ⊢
          cases ha
          simp [ho]
    · simp only [if_neg hsn] at ha ⊢
      cases hconv : env.fromGoString sn with
      | none => rw [hconv] at ha; simp at ha
      | some ws =>
          rw [hconv] at ha
          cases ho : env.hid_open (vid % 65536) (pid % 65536) (some ws) <;>
            · simp [ho] at ha ⊢
              cases ha
              simp [ho]
  · simp only [OpenPath]
    cases hp : env.hid_open_path path <;> simp [hp]
  · simp only [OpenPath]
    cases hp : env.hid_open_path path <;> simp [hp]

/-- Witness for claim C3 at a concrete environment whose `hid_open`
always answers with a handle: opening with an empty serial number
records one native call with a NULL serial and succeeds. -/
theorem c3_open_success_iff_witness :
    (Open envOpen 1 2 "").2 = [(1, 2, none)] ∧
    ((Open envOpen 1 2 "").1.1).isSome = true ∧
    ((OpenPath envOpen "p").1).isSome = false := by
  have h := c3_open_success_iff envOpen 1 2 "" "p"
  have ht := h.2.1 rfl
  refine ⟨ht, ?_, ?_⟩
  · exact (h.2.2.2.1 (1, 2, none) ht).mpr (by decide)
  · decide

/-- The enumeration loop appends exactly one `DeviceInfo` per native
node, in list order. -/
theorem enumLoop_eq (env : ApiEnv) (nodes : List HidDeviceInfo) :
    ∀ devs, enumLoop env nodes devs = devs ++ nodes.map (nodeToInfo env) := by
  induction nodes with
  | nil => intro devs; simp [enumLoop]
  | cons di rest ih => intro devs; simp [enumLoop, ih]

/-- Claim C4: `Enumerate` returns nil exactly when the native
`hid_enumerate` list is NULL, and otherwise one `DeviceInfo` per node in
list order, with the scalar fields copied from the node and each wide
string converted, falling back to the empty string when the conversion
fails — a conversion failure never drops the node and never makes
`Enumerate` fail. -/
theorem c4_enumerate (env : ApiEnv) (vid pid : Nat) :
    (env.hid_enumerate (vid % 65536) (pid % 65536) = [] →
      (Enumerate env vid pid).1 = none) ∧
    (env.hid_enumerate (vid % 65536) (pid % 65536) ≠ [] →
      (Enumerate env vid pid).1 =
        some ((env.hid_enumerate (vid % 65536) (pid % 65536)).map
          (nodeToInfo env))) ∧
    (∀ di : HidDeviceInfo,
      (nodeToInfo env di).Path = di.path ∧
      (nodeToInfo env di).VendorID = di.vendor_id % 65536 ∧
      (nodeToInfo env di).ProductID = di.product_id % 65536 ∧
      (nodeToInfo env di).ReleaseNumber = di.release_number % 65536 ∧
      (nodeToInfo env di).UsagePage = di.usage_page % 65536 ∧
      (nodeToInfo env di).Usage = di.usage % 65536 ∧
      (nodeToInfo env di).InterfaceNumber = di.interface_number ∧
      (nodeToInfo env di).SerialNumber =
        (if ((env.wcharPtrToGoString di.serial_number).2).isSome then ""
         else (env.wcharPtrToGoString di.serial_number).1) ∧
      (nodeToInfo env di).Manufacturer =
        (if ((env.wcharPtrToGoString di.manufacturer_string).2).isSome then ""
         else (env.wcharPtrToGoString di.manufacturer_string).1) ∧
      (nodeToInfo env di).Product =
        (if ((env.wcharPtrToGoString di.product_string).2).isSome then ""
         else (env.wcharPtrToGoString di.product_string).1)) := by
  refine ⟨?_, ?_, ?_⟩
  · intro h
    simp only [Enumerate, h]
  · intro h
    simp only [Enumerate]
    cases he : env.hid_enumerate (vid % 65536) (pid % 65536) with
    | nil => exact absurd he h
    | cons di rest =>
        simp only [enumLoop_eq, List.nil_append]
  · intro di
    refine ⟨rfl, rfl, rfl, rfl, rfl, rfl, rfl, ?_, ?_, ?_⟩ <;>
      simp only [nodeToInfo]

/-- Witness for claim C4 at a concrete environment enumerating two
nodes, the second of which has a NULL serial number and a product string
whose conversion fails: both nodes appear, in order, with their scalar
fields copied and empty strings where the conversion failed. -/
theorem c4_enumerate_witness :
    (Enumerate envEnum 1 2).1 = some
      [{ Path := "usb:0001", VendorID := 1, ProductID := 2,
         SerialNumber := "A", ReleaseNumber := 3, Manufacturer := "A",
         Product := "A", UsagePage := 4, Usage := 5, InterfaceNumber := 6 },
       { Path := "usb:0002", VendorID := 7, ProductID := 8,
         SerialNumber := "", ReleaseNumber := 9, Manufacturer := "A",
         Product := "", UsagePage := 10, Usage := 11,
         InterfaceNumber := 12 }] := by
  have h := (c4_enumerate envEnum 1 2).2.1 (by
    intro hcon
    exact List.cons_ne_nil nodeA [nodeB] hcon)
  rw [h]
  rfl

/-- Claim C5: vendor and product IDs are 16-bit values passed unchanged:
for every in-range vid and pid, `Enumerate` and `Open` hand exactly those
values to the native call, and for every node with in-range (C `unsigned
short`) id fields, the `DeviceInfo` built from it carries exactly the
VendorID and ProductID of the node. -/
theorem c5_vid_pid_16bit (env : ApiEnv) (vid pid : Nat) (sn : String)
    (di : HidDeviceInfo) (hv : vid < 65536) (hp : pid < 65536)
    (hdv : di.vendor_id < 65536) (hdp : di.product_id < 65536) :
    (Enumerate env vid pid).2 = (vid, pid) ∧
    (∀ a ∈ (Open env vid pid sn).2, a.1 = vid ∧ a.2.1 = pid) ∧
    (nodeToInfo env di).VendorID = di.vendor_id ∧
    (nodeToInfo env di).ProductID = di.product_id := by
  have hv16 : vid % 65536 = vid := Nat.mod_eq_of_lt hv
  have hp16 : pid % 65536 = pid := Nat.mod_eq_of_lt hp
  refine ⟨?_, ?_, ?_, ?_⟩
  · simp only [Enumerate]
    cases he : env.hid_enumerate (vid % 65536) (pid % 65536) <;>
      simp [hv16, hp16]
  · intro a ha
    simp only [Open] at ha
    by_cases hsn : sn = ""
    · simp only [hsn, if_pos rfl] at ha
      cases ho : env.hid_open (vid % 65536) (pid % 65536) none <;>
        · simp [ho] at ha
          simp [ha, hv16, hp16]
    · simp only [if_neg hsn] at ha
      cases hconv : env.fromGoString sn with
      | none => rw [hconv] at ha; simp at ha
      | some ws =>
          rw [hconv] at ha
          cases ho : env.hid_open (vid % 65536) (pid % 65536) (some ws) <;>
            · simp [ho] at ha
              simp [ha, hv16, hp16]
  · simp only [nodeToInfo]
    exact Nat.mod_eq_of_lt hdv
  · simp only [nodeToInfo]
    exact Nat.mod_eq_of_lt hdp

/-- Witness for claim C5 at concrete in-range values vid = 4660,
pid = 22136 and the concrete node `nodeA`. -/
theorem c5_vid_pid_16bit_witness :
    (Enumerate env0 4660 22136).2 = (4660, 22136) ∧
    (nodeToInfo env0 nodeA).VendorID = 1 ∧
    (nodeToInfo env0 nodeA).ProductID = 2 := by
  have h := c5_vid_pid_16bit env0 4660 22136 "" nodeA
    (by decide) (by decide) (by decide) (by decide)
  exact ⟨h.1, h.2.2.1, h.2.2.2⟩

end Hidapi
